import Mathlib

/-
Verification of the zeezee-cinema data-fetching and caching layer.

The development shallowly embeds the Redux slices and thunks of the
repository:

* `movieCacheReducer` and the `fetchMovieDetail` thunk
  (store/actions + store/reducers for the movie cache slice);
* `movieDetailsReducer` and the `fetchMovieFullDetails` / `fetchMoreReviews`
  thunks (movie details slice);
* the query-string construction of `TMDBApiBase.makeRequest` and the
  `createUtils.getImageUrl` helper (movieService).

JavaScript dynamic features that matter to the claims are made explicit:

* object maps become functions `k -> Option v`, where `none` is an absent
  property (JS `undefined`);
* reading a property that the dispatched payload does not carry yields
  `undefined`; where a reducer stores such a read, the embedded state field
  has an `Option` type and receives `none`;
* `Date.now()` becomes an explicit `now : Nat` argument threaded to the
  reducer and the thunks;
* JS truthiness tests (`if (cached)`, `if (!path)`) are embedded by
  explicit truthiness functions on the embedded value types;
* the thunk returned by `fetchMovieDetail` names its first parameter
  `dispatchEvent` while its body applies the free identifier `dispatch`,
  which is bound nowhere in that module; the embedding threads the
  (non-)binding of `dispatch` explicitly, and the module-level thunk is the
  instantiation where the identifier is unbound, so the non-cached path
  aborts with a ReferenceError before the network client is invoked.
-/

/-- Point update of a JS object map: set (or delete, with `none`) key `k`. -/
def setKey {α β : Type} [DecidableEq α] (f : α → Option β) (k : α) (v : Option β) :
    α → Option β :=
  fun x => if x = k then v else f x

/-! ## Movie cache slice (movieCacheReducer + fetchMovieDetail) -/

/-- A value stored in `state.movieCache.details`.  The SUCCESS case of the
reducer writes `Date.now()` (a JS number) there; the type also allows a
movie-detail payload `d : D` so that the intended contents are expressible
and comparable. -/
inductive CacheValue (D : Type) where
  | jsNumber (n : Nat)
  | data (d : D)
deriving DecidableEq

/-- JS truthiness of `state.movieCache.details[movieId]` as tested by
`if (!forceRefresh && cached && ...)`: `undefined` is falsy, a number is
falsy only when it is `0`, an object is truthy. -/
def cacheTruthy {D : Type} : Option (CacheValue D) → Bool
  | none => false
  | some (.jsNumber n) => n != 0
  | some (.data _) => true

/-- State shape of the movie cache slice (`initialState` of the reducer
file): `details`, `lastFetched` and `loading` are JS objects keyed by movie
id, `error` is a nullable string. -/
structure MovieCacheState (D : Type) where
  details : Nat → Option (CacheValue D)
  lastFetched : Nat → Option Nat
  loading : Nat → Option Bool
  error : Option String

/-- `initialState` of the movie cache reducer file: empty objects, null
error. -/
def movieCacheInitialState (D : Type) : MovieCacheState D :=
  { details := fun _ => none
    lastFetched := fun _ => none
    loading := fun _ => none
    error := none }

/-- Actions handled by `movieCacheReducer`, with the payloads produced by
the action creators of the actions file. -/
inductive CacheAction (D : Type) where
  | fetchMovieDetailRequest (movieId : Nat)
  | fetchMovieDetailSuccess (movieId : Nat) (data : D)
  | fetchMovieDetailFailure (movieId : Nat) (error : String)
  | clearMovieCache
  | removeFromCache (movieId : Nat)

/-- `movieCacheReducer`.  `now` is the value `Date.now()` returns during
the transition.  Per the source:

* REQUEST sets `loading[movieId] = true` and clears `error`;
* SUCCESS writes `Date.now()` into `details[movieId]` (the `data` field of
  the payload is not used) and sets `loading[movieId] = false`; it does not
  touch `lastFetched`;
* FAILURE sets `loading[movieId] = false` and records the error message;
* CLEAR_MOVIE_CACHE resets `details` and `lastFetched` to empty objects;
* REMOVE_FROM_CACHE deletes the key from `details` and `lastFetched`. -/
def movieCacheReducer {D : Type} (state : MovieCacheState D) (action : CacheAction D)
    (now : Nat) : MovieCacheState D :=
  match action with
  | .fetchMovieDetailRequest movieId =>
      { state with
        loading := setKey state.loading movieId (some true)
        error := none }
  | .fetchMovieDetailSuccess movieId _ =>
      { state with
        details := setKey state.details movieId (some (.jsNumber now))
        loading := setKey state.loading movieId (some false) }
  | .fetchMovieDetailFailure movieId err =>
      { state with
        loading := setKey state.loading movieId (some false)
        error := some err }
  | .clearMovieCache =>
      { state with
        details := fun _ => none
        lastFetched := fun _ => none }
  | .removeFromCache movieId =>
      { state with
        details := setKey state.details movieId none
        lastFetched := setKey state.lastFetched movieId none }

/-- `CACHE_DURATION` from the actions file: one hour in milliseconds. -/
def CACHE_DURATION : Nat := 3600000

/-- Outcome of one call of the thunk returned by `fetchMovieDetail`. -/
inductive DetailFetchResult (D : Type) where
  | resolvedCached (v : CacheValue D)
  | resolvedData (d : D)
  | rejectedFetchError (e : String)
  | rejectedReferenceError
deriving DecidableEq

/-- A run of the `fetchMovieDetail` thunk: the store state when the call
settles, the number of invocations of `tmdb.getMovieDetails` it performed,
and how its promise settles. -/
structure DetailFetchRun (D : Type) where
  finalState : MovieCacheState D
  networkCalls : Nat
  result : DetailFetchResult D

/-- The freshness test of the thunk, line by line:
`!forceRefresh && cached && Date.now() - lastFetched < CACHE_DURATION`.
When `lastFetched[movieId]` is `undefined`, the subtraction yields `NaN`
and the comparison is false; otherwise it is signed integer arithmetic. -/
def cacheIsServable {D : Type} (forceRefresh : Bool) (cached : Option (CacheValue D))
    (lastFetched : Option Nat) (now : Nat) : Bool :=
  !forceRefresh && cacheTruthy cached &&
    (match lastFetched with
     | some t0 => decide ((now : Int) - (t0 : Int) < (CACHE_DURATION : Int))
     | none => false)

/-- Body of the thunk returned by `fetchMovieDetail ({movieId, forceRefresh})`,
parameterised by the binding that JavaScript scope resolution finds for the
free identifier `dispatch` (the thunk's own first parameter is named
`dispatchEvent`, so the module scope offers no binding: see
`fetchMovieDetail` below).  `net` is the settlement of
`tmdb.getMovieDetails(movieId, ...)` when that call is reached.

* If the cache test passes, the thunk returns `cached` with no dispatch and
  no network call.
* Otherwise it evaluates `dispatch(fetchMovieDetailRequest(movieId))`: when
  `dispatch` is unbound this throws a ReferenceError, so the promise
  rejects before any network call; when it is bound, the REQUEST action is
  reduced, the client is called once, and on success the SUCCESS action is
  reduced and the data returned, while on failure the FAILURE action is
  reduced and the error rethrown. -/
def fetchMovieDetailMissPath {D : Type} (dispatchBound : Bool) (movieId : Nat)
    (state : MovieCacheState D) (now : Nat) (net : Except String D) :
    DetailFetchRun D :=
  if dispatchBound then
    let st1 := movieCacheReducer state (.fetchMovieDetailRequest movieId) now
    match net with
    | .ok d =>
        { finalState := movieCacheReducer st1 (.fetchMovieDetailSuccess movieId d) now
          networkCalls := 1
          result := .resolvedData d }
    | .error e =>
        { finalState := movieCacheReducer st1 (.fetchMovieDetailFailure movieId e) now
          networkCalls := 1
          result := .rejectedFetchError e }
  else
    { finalState := state
      networkCalls := 0
      result := .rejectedReferenceError }

/-- See `fetchMovieDetailMissPath` for the non-cached branch; this function
is the whole thunk body, starting with the cache test. -/
def fetchMovieDetailWithDispatch {D : Type} (dispatchBound : Bool) (movieId : Nat)
    (forceRefresh : Bool) (state : MovieCacheState D) (now : Nat)
    (net : Except String D) : DetailFetchRun D :=
  match state.details movieId with
  | some v =>
      if cacheIsServable forceRefresh (some v) (state.lastFetched movieId) now then
        { finalState := state, networkCalls := 0, result := .resolvedCached v }
      else
        fetchMovieDetailMissPath dispatchBound movieId state now net
  | none =>
      -- an absent `cached` is falsy, so the cache test cannot pass
      fetchMovieDetailMissPath dispatchBound movieId state now net

/-- The `fetchMovieDetail` thunk as the module defines it: its inner
function binds `(dispatchEvent, getState)`, and the body applies the free
identifier `dispatch`, which no enclosing scope of the module binds — so
the embedded run resolves `dispatch` to nothing (`dispatchBound = false`). -/
def fetchMovieDetail {D : Type} (movieId : Nat) (forceRefresh : Bool)
    (state : MovieCacheState D) (now : Nat) (net : Except String D) :
    DetailFetchRun D :=
  fetchMovieDetailWithDispatch false movieId forceRefresh state now net

/-- `n` calls of the `fetchMovieDetail` thunk for the same `movieId`, each
issued after the previous call's synchronous segment ran (so all are issued
before any network response could arrive); returns the final store state
together with the results and the total number of network calls. -/
def fetchMovieDetailConcurrent {D : Type} (movieId : Nat) (forceRefresh : Bool)
    (now : Nat) (net : Except String D) :
    Nat → MovieCacheState D → MovieCacheState D × Nat × List (DetailFetchResult D)
  | 0, st => (st, 0, [])
  | n + 1, st =>
      let run := fetchMovieDetail movieId forceRefresh st now net
      let rest := fetchMovieDetailConcurrent movieId forceRefresh now net n run.finalState
      (rest.1, run.networkCalls + rest.2.1, run.result :: rest.2.2)

/-! ## Movie details slice (movieDetailsReducer + fetchMovieFullDetails,
fetchMoreReviews) -/

/-- Payload dispatched by `fetchMoreReviews` with
`FETCH_MORE_REVIEWS_SUCCESS`: `{ movieId, reviews, page, totalPages }`.
It carries no `id` and no `reviewsTotalPages` property, so reading those
yields `undefined`. -/
structure MoreReviewsPayload (Item : Type) where
  movieId : Nat
  reviews : List Item
  page : Nat
  totalPages : Nat
deriving DecidableEq

/-- Payload dispatched by `fetchMovieFullDetails` with
`FETCH_MOVIE_FULL_DETAILS_SUCCESS`:
`{ ...movieDetails, reviews: r.results, reviewsTotalPages: r.total_pages }`. -/
structure FullDetailsPayload (Item D : Type) where
  movieDetails : D
  id : Nat
  reviews : List Item
  reviewsTotalPages : Nat
deriving DecidableEq

/-- Actions handled (or fallen through) by `movieDetailsReducer`. -/
inductive DetailsAction (Item D : Type) where
  | fetchMovieFullDetailsRequest
  | fetchMovieFullDetailsSuccess (payload : FullDetailsPayload Item D)
  | fetchMovieFullDetailsFailure (error : String)
  | fetchMoreReviewsRequest
  | fetchMoreReviewsSuccess (payload : MoreReviewsPayload Item)
  | fetchMoreReviewsFailure (error : String)
  | clearCurrentMovie

/-- One entry of `state.reviews`, as the reachable
`FETCH_MORE_REVIEWS_SUCCESS` case writes it:
`{ items, page, totalPages }`, where `totalPages` is read off a payload
property that may be absent (hence `Option`). -/
structure ReviewsEntry (Item : Type) where
  items : List Item
  page : Nat
  totalPages : Option Nat
deriving DecidableEq

/-- State shape of the movie details slice.  `reviews` is a JS object whose
keys include the string `"undefined"` (modelled as `none`) because the
reachable success case indexes it with `action.payload.id`, a property the
`FETCH_MORE_REVIEWS_SUCCESS` payload does not have.  `current` holds the
payload object stored by that same case.  `reviesLoading` (sic) is a
property that does not exist on `initialState` and is created dynamically
by the `FETCH_MORE_REVIEWS_REQUEST` case; `reviewsLoading` is the decla-
red flag of `initialState`. -/
structure MovieDetailsState (Item D : Type) where
  current : Option (MoreReviewsPayload Item)
  reviews : Option Nat → Option (ReviewsEntry Item)
  loading : Bool
  reviewsLoading : Bool
  reviesLoading : Option Bool
  error : Option String

/-- `initialState` of the movie details reducer file. -/
def movieDetailsInitialState (Item D : Type) : MovieDetailsState Item D :=
  { current := none
    reviews := fun _ => none
    loading := false
    reviewsLoading := false
    reviesLoading := none
    error := none }

/-- `movieDetailsReducer`.  The source switch contains the case label
`FETCH_MORE_REVIEWS_SUCCESS` twice; JavaScript executes the first matching
case, so the body at lines 29-41 of the reducer file is the one that runs
for that action and the appending body at lines 57-71 is unreachable (see
`movieDetailsReducerShadowedSuccessCase`).  The executed body reads
`action.payload.id` and `action.payload.reviewsTotalPages`, properties the
dispatched payload lacks, so it writes the entry under the key
`"undefined"` (`none`) with an `undefined` `totalPages`.
`FETCH_MOVIE_FULL_DETAILS_SUCCESS` is imported but has no case, so it falls
through to `default` and leaves the state unchanged. -/
def movieDetailsReducer {Item D : Type} (state : MovieDetailsState Item D)
    (action : DetailsAction Item D) : MovieDetailsState Item D :=
  match action with
  | .fetchMovieFullDetailsRequest =>
      { state with loading := true, error := none }
  | .fetchMoreReviewsSuccess payload =>
      { state with
        current := some payload
        reviews := setKey state.reviews none
          (some { items := payload.reviews, page := 1, totalPages := none })
        loading := false }
  | .fetchMovieFullDetailsFailure err =>
      { state with loading := false, error := some err }
  | .fetchMoreReviewsRequest =>
      { state with reviesLoading := some true }
  | .fetchMoreReviewsFailure _ =>
      { state with reviewsLoading := false }
  | .clearCurrentMovie =>
      { state with current := none }
  | .fetchMovieFullDetailsSuccess _ => state

/-- The body of the second, shadowed `FETCH_MORE_REVIEWS_SUCCESS` case
(lines 57-71 of the reducer file), transcribed for reference: it appends
`payload.reviews` to `state.reviews[movieId].items` (or `[]`), sets `page`
and `totalPages` from the payload, and clears `reviewsLoading`.  JavaScript
never executes it because the first case with the same label wins. -/
def movieDetailsReducerShadowedSuccessCase {Item D : Type}
    (state : MovieDetailsState Item D) (payload : MoreReviewsPayload Item) :
    MovieDetailsState Item D :=
  let existingReviews := ((state.reviews (some payload.movieId)).map
    ReviewsEntry.items).getD []
  { state with
    reviews := setKey state.reviews (some payload.movieId)
      (some { items := existingReviews ++ payload.reviews
              page := payload.page
              totalPages := some payload.totalPages })
    reviewsLoading := false }

/-- Fold of the movie details reducer over a list of dispatched actions,
starting from `initialState`: the reachable states of the slice. -/
def runMovieDetails {Item D : Type} (actions : List (DetailsAction Item D)) :
    MovieDetailsState Item D :=
  actions.foldl movieDetailsReducer (movieDetailsInitialState Item D)

/-- How the promise of a details-slice thunk settles.  Neither
`fetchMovieFullDetails` nor `fetchMoreReviews` has a `throw` in its catch
block, so `rejected` is constructible but never produced by them. -/
inductive DetailsThunkResult where
  | resolvedUndefined
  | rejected (e : String)
deriving DecidableEq

/-- A run of a details-slice thunk: final slice state and settlement. -/
structure DetailsThunkRun (Item D : Type) where
  finalState : MovieDetailsState Item D
  result : DetailsThunkResult

/-- The `fetchMoreReviews ({movieId, page})` thunk.  `net` is the
settlement of `tmdb.getMovieReviews(movieId, page)`; on success it carries
the response fields used by the dispatch (`results`, `page`,
`total_pages`).  The thunk dispatches REQUEST, then on success dispatches
SUCCESS with `{movieId, reviews, page, totalPages}` and on error dispatches
FAILURE with the message; in both branches it returns `undefined` — the
catch block does not rethrow. -/
def fetchMoreReviews {Item D : Type} (movieId : Nat) (_page : Nat)
    (state : MovieDetailsState Item D)
    (net : Except String (List Item × Nat × Nat)) : DetailsThunkRun Item D :=
  let st1 := movieDetailsReducer state .fetchMoreReviewsRequest
  match net with
  | .ok (results, respPage, totalPages) =>
      { finalState := movieDetailsReducer st1 (.fetchMoreReviewsSuccess
          { movieId := movieId, reviews := results, page := respPage
            totalPages := totalPages })
        result := .resolvedUndefined }
  | .error e =>
      { finalState := movieDetailsReducer st1 (.fetchMoreReviewsFailure e)
        result := .resolvedUndefined }

/-- The `fetchMovieFullDetails (movieId)` thunk.  `netDetails` settles
`tmdb.getMovieDetails(...)` and, when that succeeded, `netReviews` settles
`tmdb.getMovieReviews(movieId, 1)`.  On success of both it dispatches
FULL_DETAILS_SUCCESS (which no reducer case handles); on either failure it
dispatches FULL_DETAILS_FAILURE; it never rethrows, so its promise always
resolves with `undefined`. -/
def fetchMovieFullDetails {Item D : Type} (movieId : Nat)
    (state : MovieDetailsState Item D) (netDetails : Except String D)
    (netReviews : Except String (List Item × Nat)) : DetailsThunkRun Item D :=
  let st1 := movieDetailsReducer state .fetchMovieFullDetailsRequest
  match netDetails with
  | .error e =>
      { finalState := movieDetailsReducer st1 (.fetchMovieFullDetailsFailure e)
        result := .resolvedUndefined }
  | .ok d =>
      match netReviews with
      | .error e =>
          { finalState := movieDetailsReducer st1 (.fetchMovieFullDetailsFailure e)
            result := .resolvedUndefined }
      | .ok (results, totalPages) =>
          { finalState := movieDetailsReducer st1 (.fetchMovieFullDetailsSuccess
              { movieDetails := d, id := movieId, reviews := results
                reviewsTotalPages := totalPages })
            result := .resolvedUndefined }

/-! ## TMDBApiBase.makeRequest query construction and createUtils.getImageUrl -/

/-- A JavaScript value sitting in the `params` object handed to
`makeRequest`: `undefined`, `null`, or a defined value (already in the
string form that `URLSearchParams.append` serialises it to). -/
inductive JsParamValue where
  | undefinedV
  | nullV
  | value (s : String)
deriving DecidableEq

/-- The test `params[key] !== undefined && params[key] !== null` of
`makeRequest`. -/
def jsParamDefined : JsParamValue → Bool
  | .undefinedV => false
  | .nullV => false
  | .value _ => true

/-- `URLSearchParams.append` stringification of the appended value (only
ever reached for defined values in `makeRequest`, but total). -/
def jsParamToString : JsParamValue → String
  | .undefinedV => "undefined"
  | .nullV => "null"
  | .value s => s

/-- The `Object.keys(params).forEach` loop of `makeRequest`: append each
parameter whose value is neither `undefined` nor `null`. -/
def appendQueryParams : List (String × JsParamValue) → List (String × String)
  | [] => []
  | (k, v) :: rest =>
      if jsParamDefined v then (k, jsParamToString v) :: appendQueryParams rest
      else appendQueryParams rest

/-- The query-parameter list `makeRequest` puts on the URL: for a GET
request, `api_key` is appended first, then the defined entries of `params`
in order; for any other method nothing is appended. -/
def makeRequestQuery (method : String) (apiKey : String)
    (params : List (String × JsParamValue)) : List (String × String) :=
  if method = "GET" then ("api_key", apiKey) :: appendQueryParams params
  else []

/-- `this.imageBaseUrl` set in the `TMDBApiBase` constructor. -/
def imageBaseUrl : String := "https://image.tmdb.org/t/p"

/-- `createUtils(...).getImageUrl(path, size)`:
`if (!path) return null; return imageBaseUrl + "/" + size + path`.
The JS falsiness of `path` covers `undefined`/`null` (here `none`) and the
empty string. -/
def getImageUrl (path : Option String) (size : String) : Option String :=
  match path with
  | none => none
  | some p => if p = "" then none else some (imageBaseUrl ++ "/" ++ size ++ p)

/-! ## Sample states used by witnesses -/

/-- A movie-cache state holding a prior entry for movie 7: a detail object
under `details[7]` and a fetch time under `lastFetched[7]`. -/
def sampleCacheState : MovieCacheState String :=
  { details := setKey (fun _ => none) 7 (some (.data "detail-of-7"))
    lastFetched := setKey (fun _ => none) 7 (some 5)
    loading := fun _ => none
    error := none }

/-- A movie-details state with a stored paged resource for parent 7 at
page 1 of 3. -/
def sampleDetailsState : MovieDetailsState String String :=
  { current := none
    reviews := setKey (fun _ => none) (some 7)
      (some { items := ["review-a"], page := 1, totalPages := some 3 })
    loading := false
    reviewsLoading := false
    reviesLoading := none
    error := none }

/-! ## Shared lemmas -/

/-- On a state whose `lastFetched` lacks the key, the thunk's freshness test
is false: the subtraction against an `undefined` timestamp cannot compare
below `CACHE_DURATION`. -/
theorem cacheIsServable_of_lastFetched_none {D : Type} (forceRefresh : Bool)
    (cached : Option (CacheValue D)) (now : Nat) :
    cacheIsServable forceRefresh cached none now = false := by
  simp [cacheIsServable]

/-- A `fetchMovieDetail` call on a state with no `lastFetched` entry for the
movie takes the non-cached path and rejects on the unbound `dispatch`,
leaving the store untouched and performing no network call. -/
theorem fetchMovieDetail_miss {D : Type} (movieId : Nat) (forceRefresh : Bool)
    (st : MovieCacheState D) (now : Nat) (net : Except String D)
    (h : st.lastFetched movieId = none) :
    fetchMovieDetail movieId forceRefresh st now net =
      { finalState := st, networkCalls := 0, result := .rejectedReferenceError } := by
  unfold fetchMovieDetail fetchMovieDetailWithDispatch
  cases hd : st.details movieId with
  | none => simp [fetchMovieDetailMissPath]
  | some v => simp [h, cacheIsServable_of_lastFetched_none, fetchMovieDetailMissPath]

/-- Every step of `movieDetailsReducer` keeps `reviewsLoading` false: the
FETCH_MORE_REVIEWS_REQUEST case writes the separate `reviesLoading`
property, and the only case assigning `reviewsLoading` assigns `false`. -/
theorem movieDetailsReducer_keeps_reviewsLoading_false {Item D : Type}
    (st : MovieDetailsState Item D) (a : DetailsAction Item D)
    (h : st.reviewsLoading = false) :
    (movieDetailsReducer st a).reviewsLoading = false := by
  cases a <;> simp [movieDetailsReducer, h]

/-- Folding the details reducer from any state with `reviewsLoading = false`
never turns the flag on. -/
theorem foldl_movieDetailsReducer_reviewsLoading_false {Item D : Type}
    (acts : List (DetailsAction Item D)) :
    ∀ st : MovieDetailsState Item D, st.reviewsLoading = false →
      (acts.foldl movieDetailsReducer st).reviewsLoading = false := by
  induction acts with
  | nil => intro st h; simpa using h
  | cons a rest ih =>
      intro st h
      simpa [List.foldl] using
        ih (movieDetailsReducer st a)
          (movieDetailsReducer_keeps_reviewsLoading_false st a h)

/-- Membership in the forEach-appended part of the query: exactly the
entries of `params` whose value is a defined one. -/
theorem mem_appendQueryParams (params : List (String × JsParamValue))
    (k s : String) :
    (k, s) ∈ appendQueryParams params ↔ (k, JsParamValue.value s) ∈ params := by
  induction params with
  | nil => simp [appendQueryParams]
  | cons kv rest ih =>
      obtain ⟨k', v⟩ := kv
      cases v <;>
        simp [appendQueryParams, jsParamDefined, jsParamToString, ih]

/-! ## Claim theorems -/

/-- Claim C8: for GET requests, every query parameter whose value is `null`
or `undefined` is omitted from the request URL (such an entry contributes
no pair at all, in particular not an empty string nor the text "null"),
while all other parameters and the `api_key` are appended: a pair `(k, s)`
is on the URL exactly when it is the `api_key` pair or `params` maps `k` to
the defined value `s`. -/
theorem makeRequest_omits_null_and_undefined (apiKey : String)
    (params : List (String × JsParamValue)) (k s : String) :
    (k, s) ∈ makeRequestQuery "GET" apiKey params ↔
      (k = "api_key" ∧ s = apiKey) ∨ (k, JsParamValue.value s) ∈ params := by
  simp [makeRequestQuery, mem_appendQueryParams]

/-- Claim C9: `getImageUrl` returns the no-URL signal (`null`) on an
absent or falsy path, and on a non-empty path `p` returns exactly
`imageBaseUrl ++ "/" ++ size ++ p`. -/
theorem getImageUrl_derivation (size : String) :
    getImageUrl none size = none ∧
    getImageUrl (some "") size = none ∧
    ∀ p : String, p ≠ "" →
      getImageUrl (some p) size = some (imageBaseUrl ++ "/" ++ size ++ p) := by
  refine ⟨rfl, by simp [getImageUrl], fun p hp => by simp [getImageUrl, hp]⟩

/-- Claim C9 witness: the derivation at the spec's own example,
`getImageUrl("/abc.jpg", "w500")`. -/
theorem getImageUrl_derivation_witness :
    getImageUrl (some "/abc.jpg") "w500" =
      some "https://image.tmdb.org/t/p/w500/abc.jpg" ∧
    getImageUrl none "w500" = none :=
  ⟨((getImageUrl_derivation "w500").2.2 "/abc.jpg" (by decide)).trans (by decide),
   (getImageUrl_derivation "w500").1⟩

/-- Claim C10: in every reachable state of the movie-details slice the
`reviewsLoading` flag is `false`; moreover the FETCH_MORE_REVIEWS_REQUEST
transition leaves `reviewsLoading` unchanged and instead creates the
misspelled property `reviesLoading` with value `true`. -/
theorem reviewsLoading_never_true {Item D : Type}
    (acts : List (DetailsAction Item D)) :
    (runMovieDetails acts).reviewsLoading = false ∧
    ∀ st : MovieDetailsState Item D,
      (movieDetailsReducer st .fetchMoreReviewsRequest).reviewsLoading =
        st.reviewsLoading ∧
      (movieDetailsReducer st .fetchMoreReviewsRequest).reviesLoading =
        some true := by
  refine ⟨foldl_movieDetailsReducer_reviewsLoading_false acts _ rfl,
    fun st => ⟨rfl, rfl⟩⟩

/-- Claim C5: a FETCH_MORE_REVIEWS_SUCCESS merge whose page is not
`currentPage + 1` leaves the stored paged resource of the parent — items,
current page and all — unchanged (in particular, at most `totalPages` could
have been refreshed, and in fact nothing is).  This holds because the
executed success case writes only the `"undefined"` key of `reviews`. -/
theorem moreReviews_out_of_order_noop {Item D : Type}
    (st : MovieDetailsState Item D) (k : Nat) (res : ReviewsEntry Item)
    (p : MoreReviewsPayload Item) (hres : st.reviews (some k) = some res)
    (_hpage : p.page ≠ res.page + 1) :
    (movieDetailsReducer st (.fetchMoreReviewsSuccess p)).reviews (some k) =
      some res := by
  simpa [movieDetailsReducer, setKey] using hres

/-- Claim C5 witness: merging page 3 while parent 7 sits at page 1 of 3
leaves its entry untouched. -/
theorem moreReviews_out_of_order_noop_witness :
    (movieDetailsReducer sampleDetailsState
        (.fetchMoreReviewsSuccess
          { movieId := 7, reviews := ["review-c"], page := 3, totalPages := 3 })).reviews
        (some 7) =
      some { items := ["review-a"], page := 1, totalPages := some 3 } :=
  moreReviews_out_of_order_noop sampleDetailsState 7 _ _ (by decide) (by decide)

/-- Claim C6: the FETCH_MOVIE_DETAIL_FAILURE transition writes nothing to
the cache: the whole `details` and `lastFetched` maps are unchanged, so a
pre-existing entry (value and timestamp) for any key is still retrievable
after any failure. -/
theorem movieCache_failure_preserves_cache {D : Type} (st : MovieCacheState D)
    (k m : Nat) (e : String) (now : Nat) (v : CacheValue D) (t : Nat)
    (hv : st.details k = some v) (ht : st.lastFetched k = some t) :
    (movieCacheReducer st (.fetchMovieDetailFailure m e) now).details =
      st.details ∧
    (movieCacheReducer st (.fetchMovieDetailFailure m e) now).lastFetched =
      st.lastFetched ∧
    (movieCacheReducer st (.fetchMovieDetailFailure m e) now).details k =
      some v ∧
    (movieCacheReducer st (.fetchMovieDetailFailure m e) now).lastFetched k =
      some t :=
  ⟨rfl, rfl, hv, ht⟩

/-- Claim C6 witness: a failure for movie 7 leaves the prior entry for 7
(value and timestamp) retrievable. -/
theorem movieCache_failure_preserves_cache_witness :
    (movieCacheReducer sampleCacheState
        (.fetchMovieDetailFailure 7 "boom") 999).details 7 =
      some (.data "detail-of-7") ∧
    (movieCacheReducer sampleCacheState
        (.fetchMovieDetailFailure 7 "boom") 999).lastFetched 7 = some 5 :=
  ⟨(movieCache_failure_preserves_cache sampleCacheState 7 7 "boom" 999
      (.data "detail-of-7") 5 (by decide) (by decide)).2.2.1,
   (movieCache_failure_preserves_cache sampleCacheState 7 7 "boom" 999
      (.data "detail-of-7") 5 (by decide) (by decide)).2.2.2⟩

/-- Claim C2 (failing run): a successful fetch for movie 7 completes at
`t0 = 1000` (its SUCCESS action is reduced then), leaving
`details[7] = 1000` — a timestamp, not the data — and `lastFetched[7]`
still absent.  The follow-up `fetchMovieDetail` at `t1 = 1500`, well inside
the TTL, does not return the cached value: the freshness test compares
against an `undefined` `lastFetched` and fails, and the non-cached path
then rejects with a ReferenceError on the unbound `dispatch`, issuing no
network call either. -/
theorem fetchMovieDetail_freshness_bug :
    (movieCacheReducer (movieCacheInitialState String)
        (.fetchMovieDetailSuccess 7 "detail-7") 1000).details 7 =
      some (.jsNumber 1000) ∧
    (movieCacheReducer (movieCacheInitialState String)
        (.fetchMovieDetailSuccess 7 "detail-7") 1000).lastFetched 7 = none ∧
    (fetchMovieDetail 7 false
        (movieCacheReducer (movieCacheInitialState String)
          (.fetchMovieDetailSuccess 7 "detail-7") 1000)
        1500 (.ok "detail-7-again")).result = .rejectedReferenceError ∧
    (fetchMovieDetail 7 false
        (movieCacheReducer (movieCacheInitialState String)
          (.fetchMovieDetailSuccess 7 "detail-7") 1000)
        1500 (.ok "detail-7-again")).networkCalls = 0 := by
  have h := fetchMovieDetail_miss 7 false
    (movieCacheReducer (movieCacheInitialState String)
      (.fetchMovieDetailSuccess 7 "detail-7") 1000) 1500
    (Except.ok "detail-7-again") (by decide)
  refine ⟨by decide, by decide, ?_, ?_⟩ <;> rw [h]

/-- Claim C3 (failing transition): reducing FETCH_MOVIE_DETAIL_SUCCESS for
movie 7 with payload data at `now = 1000` stores the number `1000` under
`details[7]` — not the fetched value — and leaves `lastFetched[7]` unset. -/
theorem movieCache_success_stores_timestamp :
    (movieCacheReducer (movieCacheInitialState String)
        (.fetchMovieDetailSuccess 7 "payload-7") 1000).details 7 =
      some (.jsNumber 1000) ∧
    (movieCacheReducer (movieCacheInitialState String)
        (.fetchMovieDetailSuccess 7 "payload-7") 1000).details 7 ≠
      some (.data "payload-7") ∧
    (movieCacheReducer (movieCacheInitialState String)
        (.fetchMovieDetailSuccess 7 "payload-7") 1000).lastFetched 7 =
      none := by
  refine ⟨by decide, by decide, by decide⟩

/-- Claim C4 (failing run): merging review pages 1 and 2 (of 2) for parent
7 in order leaves `reviews[7]` absent — the duplicate
`FETCH_MORE_REVIEWS_SUCCESS` case label makes the earlier, full-details
body run, which writes the page under the `"undefined"` key with `page = 1`
and an `undefined` `totalPages`, replacing rather than appending — while
the shadowed appending case, had it run, would have produced the
concatenation with current page 2. -/
theorem moreReviews_merge_bug :
    (movieDetailsReducer
        (movieDetailsReducer (movieDetailsInitialState String String)
          (.fetchMoreReviewsSuccess
            { movieId := 7, reviews := ["r1"], page := 1, totalPages := 2 }))
        (.fetchMoreReviewsSuccess
          { movieId := 7, reviews := ["r2"], page := 2, totalPages := 2 })).reviews
      (some 7) = none ∧
    (movieDetailsReducer
        (movieDetailsReducer (movieDetailsInitialState String String)
          (.fetchMoreReviewsSuccess
            { movieId := 7, reviews := ["r1"], page := 1, totalPages := 2 }))
        (.fetchMoreReviewsSuccess
          { movieId := 7, reviews := ["r2"], page := 2, totalPages := 2 })).reviews
      none = some { items := ["r2"], page := 1, totalPages := none } ∧
    (movieDetailsReducerShadowedSuccessCase
        (movieDetailsReducerShadowedSuccessCase
          (movieDetailsInitialState String String)
          { movieId := 7, reviews := ["r1"], page := 1, totalPages := 2 })
        { movieId := 7, reviews := ["r2"], page := 2, totalPages := 2 }).reviews
      (some 7) =
      some { items := ["r1", "r2"], page := 2, totalPages := some 2 } := by
  refine ⟨by decide, by decide, by decide⟩

/-- Claim C1 (failing run): two `fetchMovieDetail` calls for movie 7 issued
from the empty store before any completes do not collapse into exactly one
network call — no in-flight table or loading-flag check exists, and each
call rejects with a ReferenceError on the unbound `dispatch` before
reaching the client, so the total number of network calls is 0, not 1. -/
theorem fetchMovieDetail_no_dedup_cex :
    (fetchMovieDetailConcurrent 7 false 0 (Except.ok "detail-7") 2
        (movieCacheInitialState String)).2.1 = 0 ∧
    (fetchMovieDetailConcurrent 7 false 0 (Except.ok "detail-7") 2
        (movieCacheInitialState String)).2.1 ≠ 1 ∧
    (fetchMovieDetailConcurrent 7 false 0 (Except.ok "detail-7") 2
        (movieCacheInitialState String)).2.2 =
      [.rejectedReferenceError, .rejectedReferenceError] := by
  refine ⟨by decide, by decide, by decide⟩

/-- Claim C1 (amended): for any number of `fetchMovieDetail` calls for a
key whose `lastFetched` entry is absent (as it is in every reachable
state), issued before any completes, zero network calls occur, the store is
unchanged, and every caller rejects with a ReferenceError: the thunk has no
de-duplication and its non-cached path aborts on the unbound `dispatch`
before the client is invoked. -/
theorem fetchMovieDetail_concurrent_all_reject {D : Type} (movieId : Nat)
    (forceRefresh : Bool) (now : Nat) (net : Except String D) (n : Nat)
    (st : MovieCacheState D) (h : st.lastFetched movieId = none) :
    (fetchMovieDetailConcurrent movieId forceRefresh now net n st).1 = st ∧
    (fetchMovieDetailConcurrent movieId forceRefresh now net n st).2.1 = 0 ∧
    (fetchMovieDetailConcurrent movieId forceRefresh now net n st).2.2 =
      List.replicate n .rejectedReferenceError := by
  induction n with
  | zero => exact ⟨rfl, rfl, rfl⟩
  | succ m ih =>
      have hrun := fetchMovieDetail_miss movieId forceRefresh st now net h
      simp only [fetchMovieDetailConcurrent, hrun]
      obtain ⟨h1, h2, h3⟩ := ih
      exact ⟨h1, by simpa using h2, by simpa [List.replicate] using h3⟩

/-- Claim C1 witness for the amended statement: two calls from the initial
state. -/
theorem fetchMovieDetail_concurrent_all_reject_witness :
    (fetchMovieDetailConcurrent 7 false 0 (Except.ok "d") 2
        (movieCacheInitialState String)).2.1 = 0 ∧
    (fetchMovieDetailConcurrent 7 false 0 (Except.ok "d") 2
        (movieCacheInitialState String)).2.2 =
      List.replicate 2 .rejectedReferenceError :=
  ⟨(fetchMovieDetail_concurrent_all_reject 7 false 0 (Except.ok "d") 2
      (movieCacheInitialState String) rfl).2.1,
   (fetchMovieDetail_concurrent_all_reject 7 false 0 (Except.ok "d") 2
      (movieCacheInitialState String) rfl).2.2⟩

/-- Claim C7 (failing run): a `fetchMoreReviews` call whose client request
fails with "network down" resolves with `undefined` — its promise does not
reject with the underlying error. -/
theorem fetchMoreReviews_swallows_error_cex :
    (fetchMoreReviews 7 2
        (movieDetailsInitialState String String)
        (Except.error "network down")).result = .resolvedUndefined ∧
    DetailsThunkResult.resolvedUndefined ≠
      DetailsThunkResult.rejected "network down" := by
  refine ⟨rfl, by decide⟩

/-- Claim C7 (amended): `fetchMoreReviews` and `fetchMovieFullDetails` do
not propagate client errors: each catches the error, dispatches its FAILURE
action carrying the message, and resolves with `undefined` (for either of
the two awaited calls of `fetchMovieFullDetails`). -/
theorem detailsThunks_swallow_errors {Item D : Type} (movieId page : Nat)
    (st : MovieDetailsState Item D) (e : String) (d : D)
    (netReviews : Except String (List Item × Nat)) :
    (fetchMoreReviews movieId page st (.error e)).result =
      .resolvedUndefined ∧
    (fetchMoreReviews movieId page st (.error e)).finalState =
      movieDetailsReducer (movieDetailsReducer st .fetchMoreReviewsRequest)
        (.fetchMoreReviewsFailure e) ∧
    (fetchMovieFullDetails movieId st (.error e) netReviews).result =
      .resolvedUndefined ∧
    (fetchMovieFullDetails movieId st (.ok d) (.error e)).result =
      .resolvedUndefined :=
  ⟨rfl, rfl, rfl, rfl⟩
